import Mathlib

/-!
Shallow embedding of the background-process manager in
`db/background_mgr.go` (sync_gateway_mod).

Bucket operations (GetRaw, WriteCas, Set, GetAndTouchRaw, ...) are external
collaborators; each embedded function takes their results as explicit
arguments (oracles) and returns the new manager state, the returned error,
and a trace of the side operations it performed.  JSON byte slices are
modelled as parsed JSON values (`JVal`): marshalling is the identity and
unmarshalling is the structural check the Go `encoding/json` calls perform.
Machine time is modelled as integers; `time.Duration` values are in
nanoseconds, matching Go.
-/

namespace SyncGW

/-- `BackgroundProcessState` is a Go string type; the five declared constants
plus the zero value `""` (`empty`) are the only values the manager ever
assigns to its `State` field. -/
inductive BackgroundProcessState where
  | empty
  | running
  | completed
  | stopping
  | stopped
  | error
deriving DecidableEq, Repr

/-- The underlying Go string of a `BackgroundProcessState`. -/
def BackgroundProcessState.toStr : BackgroundProcessState → String
  | .empty => ""
  | .running => "running"
  | .completed => "completed"
  | .stopping => "stopping"
  | .stopped => "stopped"
  | .error => "error"

/-- Go `error` values that flow through `background_mgr.go`: bucket
doc-not-found and CAS-mismatch (recognised by `base.IsDocNotFoundError` /
`base.IsCasMismatch`), HTTP-coded errors from `base.HTTPErrorf`, JSON
(un)marshalling errors, and any other opaque error. -/
inductive GoErr where
  | docNotFound
  | casMismatch
  | httpError (status : Nat) (msg : String)
  | jsonError (msg : String)
  | other (msg : String)
deriving DecidableEq, Repr

/-- `err.Error()`: the message string of an error. -/
def GoErr.message : GoErr → String
  | .docNotFound => "key not found"
  | .casMismatch => "cas mismatch"
  | .httpError code msg => toString code ++ " " ++ msg
  | .jsonError msg => msg
  | .other msg => msg

/-- Embedded struct `BackgroundManagerStatus` (the common status envelope):
`State`, `StartTime` (modelled as an integer timestamp), `LastErrorMessage`. -/
structure BackgroundManagerStatus where
  State : BackgroundProcessState
  StartTime : Int
  LastErrorMessage : String
deriving DecidableEq, Repr

/-- The mutable fields of `BackgroundManager` the claims are about: the
embedded status envelope, `lastError`, and whether the terminator channel is
closed (`base.SafeTerminator` is one-shot, so a `Bool` captures it). -/
structure MgrState where
  status : BackgroundManagerStatus
  lastError : Option GoErr
  terminatorClosed : Bool
deriving DecidableEq, Repr

/-- `BackgroundManager.SetError`: records the error, forces the state to
ERROR and closes the terminator (`b.Terminate()`). -/
def SetError (e : GoErr) (m : MgrState) : MgrState :=
  { m with lastError := some e,
           status := { m.status with State := .error },
           terminatorClosed := true }

/-- The tail of the run goroutine spawned by `BackgroundManager.Start`
(background_mgr.go lines 140-154): given the result of `Process.Run`, on a
non-nil error call `SetError`; always `b.Terminate()`; then, under the lock,
promote STOPPING to STOPPED and any other non-ERROR state to COMPLETED. -/
def runTaskCompletion (runErr : Option GoErr) (m : MgrState) : MgrState :=
  let m1 := match runErr with
    | some e => SetError e m
    | none => m
  let m2 := { m1 with terminatorClosed := true }
  if m2.status.State = .stopping then
    { m2 with status := { m2.status with State := .stopped } }
  else if m2.status.State ≠ .error then
    { m2 with status := { m2.status with State := .completed } }
  else
    m2

/-- A sample manager state mid-run. -/
def mgrRunning : MgrState :=
  { status := { State := .running, StartTime := 0, LastErrorMessage := "" },
    lastError := none,
    terminatorClosed := false }

/-- Parsed JSON values; raw byte slices holding JSON are modelled at this
level, so `base.JSONMarshal` is the identity and `base.JSONUnmarshal` into a
`map[string]interface\x7b\x7d` succeeds exactly on `obj`. -/
inductive JVal where
  | str (s : String)
  | boolVal (b : Bool)
  | num (n : Int)
  | obj (fields : List (String × JVal))

/-- `clusterStatus["status"]`: lookup in a JSON object's field list. -/
def lookupField : List (String × JVal) → String → Option JVal
  | [], _ => none
  | (k, v) :: rest, key => if k = key then some v else lookupField rest key

/-- `clusterStatus["status"] = v`: Go map assignment (replace or insert). -/
def setField : List (String × JVal) → String → JVal → List (String × JVal)
  | [], key, v => [(key, v)]
  | (k, w) :: rest, key, v =>
      if k = key then (key, v) :: rest else (k, w) :: setField rest key v

/-- `BackgroundManager.getStatusLocal` (background_mgr.go lines 252-266):
under the lock, copy the embedded envelope, default an empty state to
COMPLETED on the copy, render `lastError` into the copy's `LastErrorMessage`,
and hand the copy to `Process.GetProcessStatus`.  Returns the envelope passed
to `GetProcessStatus` together with the manager state after the call. -/
def getStatusLocal (m : MgrState) : BackgroundManagerStatus × MgrState :=
  let backgroundStatus := m.status
  let backgroundStatus :=
    if backgroundStatus.State.toStr = "" then
      { backgroundStatus with State := .completed }
    else backgroundStatus
  let backgroundStatus :=
    match m.lastError with
    | some e => { backgroundStatus with LastErrorMessage := e.message }
    | none => backgroundStatus
  (backgroundStatus, m)

/-- `BackgroundManager.getStatusFromCluster` (background_mgr.go lines
268-309).  Oracles: `statusGet` is the `GetRaw` of the status doc (bytes and
CAS), `hbGet` the `GetRaw` of the heartbeat doc.  Returns the bytes and error
the Go function returns, plus the list of `WriteCas(statusDocID, cas, doc)`
attempts it made.  `writeCasRes`, the outcome of that rewrite, is accepted
but never consulted: the Go code assigns the call's results to blanks. -/
def getStatusFromCluster (statusGet : Except GoErr (JVal × Nat))
    (hbGet : Except GoErr JVal) (writeCasRes : Except GoErr Nat) :
    Option JVal × Option GoErr × List (Nat × JVal) :=
  match statusGet with
  | .error e =>
      if e = GoErr.docNotFound then (none, none, [])
      else (none, some e, [])
  | .ok (status, statusCas) =>
      match status with
      | .obj clusterStatus =>
          match lookupField clusterStatus "status" with
          | some (.str clusterState) =>
              if clusterState ≠ BackgroundProcessState.completed.toStr ∧
                 clusterState ≠ BackgroundProcessState.stopped.toStr ∧
                 clusterState ≠ BackgroundProcessState.error.toStr then
                match hbGet with
                | .error e =>
                    if e = GoErr.docNotFound then
                      let patched :=
                        JVal.obj (setField clusterStatus "status"
                          (JVal.str BackgroundProcessState.stopped.toStr))
                      (some patched, none, [(statusCas, patched)])
                    else
                      (some status, some e, [])
                | .ok _ => (some status, none, [])
              else (some status, none, [])
          | _ => (some status, none, [])
      | _ => (none, some (GoErr.jsonError "json: cannot unmarshal into map"), [])

/-- What `BackgroundManager.GetStatus` produces: the cluster status-doc
bytes, the locally built envelope (then serialized by
`Process.GetProcessStatus`), or an error. -/
inductive GetStatusOutcome where
  | clusterBytes (v : JVal)
  | localStatus (envelope : BackgroundManagerStatus)
  | failure (e : GoErr)

/-- `BackgroundManager.GetStatus` (background_mgr.go lines 233-250): in
cluster-aware mode delegate to `getStatusFromCluster`, falling back to the
local status when the cluster status is nil; otherwise local only.
`clusterOracles = none` models a non-cluster-aware manager. -/
def GetStatus
    (clusterOracles :
      Option (Except GoErr (JVal × Nat) × Except GoErr JVal × Except GoErr Nat))
    (m : MgrState) : GetStatusOutcome × List (Nat × JVal) :=
  match clusterOracles with
  | some (statusGet, hbGet, writeCasRes) =>
      match getStatusFromCluster statusGet hbGet writeCasRes with
      | (_, some e, writes) => (.failure e, writes)
      | (none, none, writes) => (.localStatus (getStatusLocal m).1, writes)
      | (some v, none, writes) => (.clusterBytes v, writes)
  | none => (.localStatus (getStatusLocal m).1, [])

/-- `base.IsCasMismatch` applied to the error of a `WriteCas` result. -/
def isCasMismatchRes : Except GoErr Nat → Bool
  | .error GoErr.casMismatch => true
  | _ => false

/-- The cluster-aware branch of `BackgroundManager.markStart`
(background_mgr.go lines 186-215).  `writeCasRes` is the result of
`WriteCas(heartbeatDocID, cas=0, exp=HeartbeatExpirySecs, "\x7b\x7d")`.  On CAS
mismatch it reports 503 "Process already running"; otherwise (success or any
other error alike) it installs a fresh terminator, sets the state to RUNNING
and returns nil. -/
def markStartCluster (writeCasRes : Except GoErr Nat) (m : MgrState) :
    MgrState × Option GoErr :=
  if isCasMismatchRes writeCasRes then
    (m, some (GoErr.httpError 503 "Process already running"))
  else
    ({ m with terminatorClosed := false,
              status := { m.status with State := .running } }, none)

/-- `BackgroundManagerHeartbeatExpirySecs = 30` (an untyped Go constant). -/
def BackgroundManagerHeartbeatExpirySecs : Int := 30

/-- `BackgroundManagerHeartbeatIntervalSecs = 1` (an untyped Go constant). -/
def BackgroundManagerHeartbeatIntervalSecs : Int := 1

/-- Unmarshal heartbeat-doc bytes into `HeartbeatDoc{ShouldStop bool}`:
a missing `should_stop` field leaves the zero value `false`; a non-object or
a wrongly typed field is a JSON error. -/
def unmarshalHeartbeatDoc : JVal → Except GoErr Bool
  | .obj fields =>
      match lookupField fields "should_stop" with
      | some (.boolVal b) => .ok b
      | some _ => .error (GoErr.jsonError "json: cannot unmarshal field should_stop")
      | none => .ok false
  | _ => .error (GoErr.jsonError "json: cannot unmarshal into HeartbeatDoc")

/-- Observable effects of one heartbeat-renewal tick: the error it returns,
whether it invoked `b.Stop()`, and whether it updated
`lastSuccessfulHeartbeatUnix`. -/
structure HeartbeatTick where
  err : Option GoErr
  stopInvoked : Bool
  heartbeatTimestampUpdated : Bool
deriving DecidableEq, Repr

/-- `BackgroundManager.UpdateHeartbeatDocClusterAware` (background_mgr.go
lines 427-461).  `getAndTouchRes` is the result of
`GetAndTouchRaw(heartbeatDocID, HeartbeatExpirySecs)`; `terminatorClosed` is
`b.terminator.IsClosed()`; `nowNs` is `time.Now()` in nanoseconds and
`lastSuccessfulHeartbeatUnix` the stored value in seconds.  The Go guard is
`time.Now().Sub(time.Unix(last, 0)) > (ExpirySecs - IntervalSecs)`: the left
side is a `time.Duration` counted in nanoseconds, and the untyped constant
difference `30 - 1` converts to `time.Duration(29)`, i.e. 29 nanoseconds —
not 29 seconds — which the embedding reproduces exactly. -/
def UpdateHeartbeatDocClusterAware (getAndTouchRes : Except GoErr JVal)
    (terminatorClosed : Bool) (nowNs lastSuccessfulHeartbeatUnix : Int) :
    HeartbeatTick :=
  match getAndTouchRes with
  | .error e =>
      if e = GoErr.docNotFound ∧ terminatorClosed then
        { err := none, stopInvoked := false, heartbeatTimestampUpdated := false }
      else if nowNs - lastSuccessfulHeartbeatUnix * 1000000000 >
          BackgroundManagerHeartbeatExpirySecs - BackgroundManagerHeartbeatIntervalSecs then
        { err := some e, stopInvoked := false, heartbeatTimestampUpdated := false }
      else
        { err := none, stopInvoked := false, heartbeatTimestampUpdated := false }
  | .ok statusRaw =>
      match unmarshalHeartbeatDoc statusRaw with
      | .error e =>
          { err := some e, stopInvoked := false, heartbeatTimestampUpdated := false }
      | .ok shouldStop =>
          -- A Stop failure is only warned about, never returned.
          { err := none, stopInvoked := shouldStop, heartbeatTimestampUpdated := true }

/-- Bucket results the cluster-aware branch of `markStop` consumes:
`hbGet` from `GetRaw(heartbeatDocID)` and `hbSet` from
`Set(heartbeatDocID, exp, HeartbeatDoc{ShouldStop: true})`. -/
structure ClusterStopEnv where
  hbGet : Except GoErr JVal
  hbSet : Option GoErr

/-- `BackgroundManager.markStop` (background_mgr.go lines 336-374).
`cluster = none` is local (non-cluster-aware) mode.  Returns the manager
state after the call and the returned error. -/
def markStop (cluster : Option ClusterStopEnv) (m : MgrState) :
    MgrState × Option GoErr :=
  match cluster with
  | some env =>
      match env.hbGet with
      | .error e =>
          if e = GoErr.docNotFound then
            (m, some (GoErr.httpError 503 "Process already stopped"))
          else
            (m, some (GoErr.httpError 500
              ("Unable to verify whether a process is running: " ++ e.message)))
      | .ok _ =>
          match env.hbSet with
          | some e =>
              (m, some (GoErr.httpError 500
                ("Failed to mark process as stopping: " ++ e.message)))
          | none =>
              if m.status.State = .running then
                ({ m with status := { m.status with State := .stopping } }, none)
              else (m, none)
  | none =>
      if m.status.State = .stopping then
        (m, some (GoErr.httpError 503 "Process already stopping"))
      else if m.status.State = .completed ∨ m.status.State = .stopped then
        (m, some (GoErr.httpError 503 "Process already stopped"))
      else
        ({ m with status := { m.status with State := .stopping } }, none)

/-- `BackgroundManager.Stop` (background_mgr.go lines 320-328): run
`markStop`; on error return it unchanged; on success close the terminator
(`b.Terminate()`). -/
def Stop (cluster : Option ClusterStopEnv) (m : MgrState) :
    MgrState × Option GoErr :=
  match markStop cluster m with
  | (m1, some e) => (m1, some e)
  | (m1, none) => ({ m1 with terminatorClosed := true }, none)

/-- The mutable fields of `AttachmentCompactionManager` (background_mgr.go
lines 599-606); the two counters are atomic integers. -/
structure AttachmentState where
  MarkedAttachments : Int
  PurgedAttachments : Int
  CompactID : String
  Phase : String
  dryRun : Bool
deriving DecidableEq, Repr

/-- `AttachmentManagerResponse` (background_mgr.go lines 726-733), the JSON
shape of the persisted attachment-compaction status document; only the
fields `Init` reads are carried. -/
structure AttachmentManagerResponse where
  State : BackgroundProcessState
  MarkedAttachments : Int
  PurgedAttachments : Int
  CompactID : String
  Phase : String
  DryRun : Bool
deriving DecidableEq, Repr

/-- The `options` map entries `AttachmentCompactionManager.Init` reads.
`none` models a key that is absent or whose value is not a `bool` (the Go
comma-ok type assertions yield `false, false` there). -/
structure CompactionOptions where
  dryRun : Option Bool
  reset : Option Bool
deriving DecidableEq, Repr

/-- `AttachmentCompactionManager.Init` (background_mgr.go lines 621-673).
`newUUID` is the value `uuid.NewRandom()` would produce; `clusterStatus` is
the prior status-doc bytes: `none` for nil, `some (.error _)` for bytes that
fail to unmarshal, `some (.ok resp)` for bytes unmarshalling to `resp`.
A fresh run (`newRunInit`) records `dryRun` from options and the new UUID;
a resume adopts compact ID, phase, dry-run flag and both counters from the
prior status. -/
def attachmentInit (newUUID : String) (opts : CompactionOptions)
    (clusterStatus : Option (Except GoErr AttachmentManagerResponse))
    (a : AttachmentState) : AttachmentState :=
  let newRunInit := { a with dryRun := opts.dryRun.getD false,
                             CompactID := newUUID }
  match clusterStatus with
  | some parsed =>
      let reset := opts.reset.getD false
      match parsed with
      | .error _ => newRunInit
      | .ok resp =>
          if resp.State = .completed ∨ reset = true then newRunInit
          else
            { a with CompactID := resp.CompactID,
                     Phase := resp.Phase,
                     dryRun := resp.DryRun,
                     MarkedAttachments := resp.MarkedAttachments,
                     PurgedAttachments := resp.PurgedAttachments }
  | none => newRunInit

/-- Observable events of `AttachmentCompactionManager.Run`, in order:
`SetPhase` calls, `persistClusterStatus` calls, and entries into the three
phase bodies `Mark` / `Sweep` / `Cleanup`. -/
inductive RunEvent where
  | setPhase (p : String)
  | persistStatus
  | runMark
  | runSweep
  | runCleanup
deriving DecidableEq, Repr

/-- Outcomes of the three phase bodies for one `Run` invocation: each
phase's returned error, and whether `terminator.IsClosed()` holds when that
phase returns. -/
structure PhaseEnv where
  markErr : Option GoErr
  closedAfterMark : Bool
  sweepErr : Option GoErr
  closedAfterSweep : Bool
  cleanupErr : Option GoErr
  closedAfterCleanup : Bool
deriving DecidableEq, Repr

/-- The `case "cleanup"` arm of the `Run` switch: set phase, persist,
run `Cleanup`; on error or closed terminator return (its deferred final
persist included); otherwise clear the phase and return nil. -/
def runCleanupCase (env : PhaseEnv) (a : AttachmentState)
    (acc : List RunEvent) : AttachmentState × List RunEvent × Option GoErr :=
  let a := { a with Phase := "cleanup" }
  let acc := acc ++ [RunEvent.setPhase "cleanup", RunEvent.persistStatus,
                     RunEvent.runCleanup]
  if env.cleanupErr.isSome ∨ env.closedAfterCleanup = true then
    (a, acc ++ [RunEvent.persistStatus], env.cleanupErr)
  else
    ({ a with Phase := "" }, acc ++ [RunEvent.persistStatus], none)

/-- The `case "sweep"` arm: set phase, persist, run `Sweep`; on error or
closed terminator return; otherwise fall through to cleanup. -/
def runSweepCase (env : PhaseEnv) (a : AttachmentState)
    (acc : List RunEvent) : AttachmentState × List RunEvent × Option GoErr :=
  let a := { a with Phase := "sweep" }
  let acc := acc ++ [RunEvent.setPhase "sweep", RunEvent.persistStatus,
                     RunEvent.runSweep]
  if env.sweepErr.isSome ∨ env.closedAfterSweep = true then
    (a, acc ++ [RunEvent.persistStatus], env.sweepErr)
  else
    runCleanupCase env a acc

/-- The `case "mark", ""` arm: set phase, persist, run `Mark`; on error or
closed terminator return; otherwise fall through to sweep. -/
def runMarkCase (env : PhaseEnv) (a : AttachmentState)
    (acc : List RunEvent) : AttachmentState × List RunEvent × Option GoErr :=
  let a := { a with Phase := "mark" }
  let acc := acc ++ [RunEvent.setPhase "mark", RunEvent.persistStatus,
                     RunEvent.runMark]
  if env.markErr.isSome ∨ env.closedAfterMark = true then
    (a, acc ++ [RunEvent.persistStatus], env.markErr)
  else
    runSweepCase env a acc

/-- `AttachmentCompactionManager.Run` (background_mgr.go lines 675-717): a
fall-through switch on the current phase; an unrecognised phase matches no
case, so only the trailing `SetPhase("")` and the deferred persist run.
Returns the attachment state after the call, the event trace, and the error
`Run` returns. -/
def attachmentRun (env : PhaseEnv) (a : AttachmentState) :
    AttachmentState × List RunEvent × Option GoErr :=
  if a.Phase = "mark" ∨ a.Phase = "" then runMarkCase env a []
  else if a.Phase = "sweep" then runSweepCase env a []
  else if a.Phase = "cleanup" then runCleanupCase env a []
  else ({ a with Phase := "" }, [RunEvent.persistStatus], none)

/-- `AttachmentCompactionManager.ResetStatus` (background_mgr.go lines
751-758): zero both counters and clear the dry-run flag; `CompactID` and
`Phase` are left untouched. -/
def attachmentResetStatus (a : AttachmentState) : AttachmentState :=
  { a with MarkedAttachments := 0, PurgedAttachments := 0, dryRun := false }

/-- The attachment-process part of a `BackgroundManager.Start`
(background_mgr.go lines 96-178, restricted to the `Process` state): Start
calls `b.resetStatus()` (which calls `Process.ResetStatus()`), then
`Process.Init(options, priorStatusBytes)`, then spawns `Process.Run`. -/
def attachmentStartPipeline (newUUID : String) (opts : CompactionOptions)
    (clusterStatus : Option (Except GoErr AttachmentManagerResponse))
    (env : PhaseEnv) (a : AttachmentState) :
    AttachmentState × List RunEvent × Option GoErr :=
  attachmentRun env (attachmentInit newUUID opts clusterStatus (attachmentResetStatus a))

/-! ## Theorems settling the claims -/

/-- C1: for every completed invocation of the run task spawned by `Start`:
a non-nil `Process.Run` error is recorded as `lastError` and forces the
state to ERROR; the terminator is closed in every case; and then a state of
STOPPING is promoted to STOPPED while any state other than STOPPING and
ERROR is promoted to COMPLETED. -/
theorem runTask_records_error_closes_terminator_promotes
    (runErr : Option GoErr) (m : MgrState) :
    (runTaskCompletion runErr m).terminatorClosed = true ∧
    (∀ e, runErr = some e →
      (runTaskCompletion runErr m).lastError = some e ∧
      (runTaskCompletion runErr m).status.State = .error) ∧
    (runErr = none →
      (m.status.State = .stopping →
        (runTaskCompletion runErr m).status.State = .stopped) ∧
      (m.status.State ≠ .stopping → m.status.State ≠ .error →
        (runTaskCompletion runErr m).status.State = .completed)) := by
  obtain ⟨⟨s, t, msg⟩, le, tc⟩ := m
  cases runErr with
  | some e =>
      refine ⟨?_, ?_, ?_⟩ <;> cases s <;>
        simp [runTaskCompletion, SetError]
  | none =>
      refine ⟨?_, ?_, ?_⟩ <;> cases s <;>
        simp [runTaskCompletion, SetError]

/-- Witness for C1 at concrete inputs: an erroring run records the error and
lands in ERROR; a clean run from RUNNING lands in COMPLETED; the terminator
is closed. -/
theorem runTask_records_error_closes_terminator_promotes_witness :
    (runTaskCompletion (some (GoErr.other "boom")) mgrRunning).lastError =
        some (GoErr.other "boom") ∧
    (runTaskCompletion (some (GoErr.other "boom")) mgrRunning).status.State =
        BackgroundProcessState.error ∧
    (runTaskCompletion none mgrRunning).status.State =
        BackgroundProcessState.completed ∧
    (runTaskCompletion none mgrRunning).terminatorClosed = true := by
  refine ⟨?_, ?_, ?_, ?_⟩
  · exact ((runTask_records_error_closes_terminator_promotes
      (some (GoErr.other "boom")) mgrRunning).2.1 _ rfl).1
  · exact ((runTask_records_error_closes_terminator_promotes
      (some (GoErr.other "boom")) mgrRunning).2.1 _ rfl).2
  · exact ((runTask_records_error_closes_terminator_promotes
      none mgrRunning).2.2 rfl).2 (by decide) (by decide)
  · exact (runTask_records_error_closes_terminator_promotes none mgrRunning).1

/-- Looking up the field just set in a JSON object yields the new value. -/
theorem lookupField_setField (l : List (String × JVal)) (key : String) (v : JVal) :
    lookupField (setField l key v) key = some v := by
  induction l with
  | nil => simp [setField, lookupField]
  | cons hd tl ih =>
      obtain ⟨k, w⟩ := hd
      by_cases hk : k = key
      · simp [setField, lookupField, hk]
      · simp [setField, lookupField, hk, ih]

/-- C2: in cluster mode, when the status document holds status RUNNING or
STOPPING and the heartbeat document is not found, `GetStatus` returns bytes
whose `status` field is `"stopped"`, attempts one best-effort CAS rewrite of
the status document with those bytes at the status doc's CAS, and its result
does not depend on the outcome of that rewrite. -/
theorem getStatus_selfHeals_to_stopped (fields : List (String × JVal))
    (cas : Nat) (s : String) (wc : Except GoErr Nat) (m : MgrState)
    (hfield : lookupField fields "status" = some (JVal.str s))
    (hs : s = "running" ∨ s = "stopping") :
    GetStatus (some (.ok (JVal.obj fields, cas), .error GoErr.docNotFound, wc)) m =
      (GetStatusOutcome.clusterBytes
        (JVal.obj (setField fields "status" (JVal.str "stopped"))),
       [(cas, JVal.obj (setField fields "status" (JVal.str "stopped")))]) ∧
    lookupField (setField fields "status" (JVal.str "stopped")) "status" =
      some (JVal.str "stopped") ∧
    (∀ wc' : Except GoErr Nat,
      GetStatus (some (.ok (JVal.obj fields, cas), .error GoErr.docNotFound, wc)) m =
      GetStatus (some (.ok (JVal.obj fields, cas), .error GoErr.docNotFound, wc')) m) := by
  refine ⟨?_, lookupField_setField fields "status" (JVal.str "stopped"), ?_⟩
  · rcases hs with rfl | rfl <;>
      simp [GetStatus, getStatusFromCluster, hfield, BackgroundProcessState.toStr]
  · intro wc'
    rcases hs with rfl | rfl <;>
      simp [GetStatus, getStatusFromCluster, hfield, BackgroundProcessState.toStr]

/-- Witness for C2: a status document `{"status": "running"}` with CAS 7 and
a missing heartbeat doc is returned as `{"status": "stopped"}` and one CAS
rewrite at CAS 7 is attempted. -/
theorem getStatus_selfHeals_to_stopped_witness :
    GetStatus (some (.ok (JVal.obj [("status", JVal.str "running")], 7),
        .error GoErr.docNotFound, .error GoErr.casMismatch)) mgrRunning =
      (GetStatusOutcome.clusterBytes (JVal.obj [("status", JVal.str "stopped")]),
       [(7, JVal.obj [("status", JVal.str "stopped")])]) ∧
    lookupField [("status", JVal.str "stopped")] "status" =
      some (JVal.str "stopped") := by
  have h := getStatus_selfHeals_to_stopped [("status", JVal.str "running")] 7
    "running" (.error GoErr.casMismatch) mgrRunning (by simp [lookupField])
    (Or.inl rfl)
  refine ⟨?_, ?_⟩
  · have := h.1
    simpa [setField] using this
  · have := h.2.1
    simpa [setField] using this

/-- A sample manager state after a completed run. -/
def mgrCompleted : MgrState :=
  { status := { State := .completed, StartTime := 0, LastErrorMessage := "" },
    lastError := none,
    terminatorClosed := true }

/-- C3 counterexample: a `WriteCas` failure that is not a CAS mismatch (here
a plain transport error) is NOT propagated by the cluster branch of
`markStart`: it returns nil and the state is set to RUNNING anyway. -/
theorem markStart_swallows_non_cas_error :
    markStartCluster (.error (GoErr.other "network failure")) mgrCompleted =
      ({ status := { State := .running, StartTime := 0, LastErrorMessage := "" },
         lastError := none,
         terminatorClosed := false }, none) ∧
    (markStartCluster (.error (GoErr.other "network failure")) mgrCompleted).2 ≠
      some (GoErr.other "network failure") := by
  constructor
  · rfl
  · decide

/-- C3 (amended): cluster-mode `markStart` reports 503 "Process already
running" on a CAS mismatch, leaving the manager untouched; on ANY other
`WriteCas` result — success or error alike — it installs a fresh terminator,
sets the state to RUNNING and returns nil, so non-CAS-mismatch errors are
swallowed, not propagated. -/
theorem markStart_cluster_spec (writeCasRes : Except GoErr Nat) (m : MgrState) :
    (isCasMismatchRes writeCasRes = true →
      markStartCluster writeCasRes m =
        (m, some (GoErr.httpError 503 "Process already running"))) ∧
    (isCasMismatchRes writeCasRes = false →
      markStartCluster writeCasRes m =
        ({ m with terminatorClosed := false,
                  status := { m.status with State := .running } }, none)) := by
  constructor
  · intro h
    simp [markStartCluster, h]
  · intro h
    simp [markStartCluster, h]

/-- Witness for C3's amended theorem: a CAS mismatch is rejected with 503 and
leaves a completed manager untouched; a successful `WriteCas` claims the
lease and sets the state to RUNNING. -/
theorem markStart_cluster_spec_witness :
    markStartCluster (.error GoErr.casMismatch) mgrCompleted =
      (mgrCompleted, some (GoErr.httpError 503 "Process already running")) ∧
    markStartCluster (.ok 42) mgrCompleted =
      ({ mgrCompleted with
          terminatorClosed := false,
          status := { mgrCompleted.status with State := .running } }, none) := by
  refine ⟨?_, ?_⟩
  · exact (markStart_cluster_spec (.error GoErr.casMismatch) mgrCompleted).1 rfl
  · exact (markStart_cluster_spec (.ok 42) mgrCompleted).2 rfl

/-- C4: the heartbeat-renewal step is claimed to escalate a fetch error only
when the time since the last successful heartbeat exceeds 29 seconds.  The
code compares the elapsed `time.Duration` (nanoseconds) against the untyped
constant `30 - 1`, i.e. 29 nanoseconds.  At a failing fetch one second after
the last successful heartbeat — well inside the claimed 29-second grace
window, as the second conjunct records — the error is escalated instead of
swallowed. -/
theorem heartbeat_escalates_inside_grace_window :
    UpdateHeartbeatDocClusterAware (.error (GoErr.other "transient bucket error"))
        false 1000000000 0 =
      { err := some (GoErr.other "transient bucket error"),
        stopInvoked := false,
        heartbeatTimestampUpdated := false } ∧
    (1000000000 : Int) - 0 * 1000000000 ≤
      (BackgroundManagerHeartbeatExpirySecs - BackgroundManagerHeartbeatIntervalSecs)
        * 1000000000 := by
  constructor
  · rfl
  · decide

/-- C5: `AttachmentCompactionManager.Init` starts a fresh run — new UUID as
`CompactID`, `dryRun` taken from options — when the prior cluster status
bytes are nil, fail to unmarshal, unmarshal to state COMPLETED, or the
options carry `reset=true`; otherwise it resumes, adopting `CompactID`,
`Phase`, `dryRun` and both counters from the prior status. -/
theorem attachmentInit_fresh_or_resume (newUUID : String)
    (opts : CompactionOptions)
    (clusterStatus : Option (Except GoErr AttachmentManagerResponse))
    (a : AttachmentState) :
    (clusterStatus = none →
      attachmentInit newUUID opts clusterStatus a =
        { a with dryRun := opts.dryRun.getD false, CompactID := newUUID }) ∧
    (∀ e, clusterStatus = some (.error e) →
      attachmentInit newUUID opts clusterStatus a =
        { a with dryRun := opts.dryRun.getD false, CompactID := newUUID }) ∧
    (∀ resp, clusterStatus = some (.ok resp) →
      (resp.State = .completed ∨ opts.reset.getD false = true) →
      attachmentInit newUUID opts clusterStatus a =
        { a with dryRun := opts.dryRun.getD false, CompactID := newUUID }) ∧
    (∀ resp, clusterStatus = some (.ok resp) →
      resp.State ≠ .completed → opts.reset.getD false = false →
      attachmentInit newUUID opts clusterStatus a =
        { a with CompactID := resp.CompactID,
                 Phase := resp.Phase,
                 dryRun := resp.DryRun,
                 MarkedAttachments := resp.MarkedAttachments,
                 PurgedAttachments := resp.PurgedAttachments }) := by
  refine ⟨?_, ?_, ?_, ?_⟩
  · intro h; subst h; rfl
  · intro e h; subst h; rfl
  · intro resp h hfresh; subst h
    rcases hfresh with hc | hr
    · simp [attachmentInit, hc]
    · simp [attachmentInit, hr]
  · intro resp h hnc hnr; subst h
    simp [attachmentInit, hnc, hnr]

/-- Witness for C5: nil prior bytes start fresh with the new UUID and the
options' dry-run flag; a prior status at phase "sweep" in state RUNNING with
no reset is resumed with all five fields adopted. -/
theorem attachmentInit_fresh_or_resume_witness :
    attachmentInit "uuid-1" { dryRun := some true, reset := none } none
        { MarkedAttachments := 3, PurgedAttachments := 2, CompactID := "old",
          Phase := "sweep", dryRun := false } =
      { MarkedAttachments := 3, PurgedAttachments := 2, CompactID := "uuid-1",
        Phase := "sweep", dryRun := true } ∧
    attachmentInit "uuid-1" { dryRun := none, reset := none }
        (some (.ok { State := .running, MarkedAttachments := 500,
                     PurgedAttachments := 120, CompactID := "run-9",
                     Phase := "sweep", DryRun := false }))
        { MarkedAttachments := 0, PurgedAttachments := 0, CompactID := "",
          Phase := "", dryRun := false } =
      { MarkedAttachments := 500, PurgedAttachments := 120,
        CompactID := "run-9", Phase := "sweep", dryRun := false } := by
  constructor
  · exact (attachmentInit_fresh_or_resume "uuid-1"
      { dryRun := some true, reset := none } none
      { MarkedAttachments := 3, PurgedAttachments := 2, CompactID := "old",
        Phase := "sweep", dryRun := false }).1 rfl
  · exact (attachmentInit_fresh_or_resume "uuid-1"
      { dryRun := none, reset := none }
      (some (.ok { State := .running, MarkedAttachments := 500,
                   PurgedAttachments := 120, CompactID := "run-9",
                   Phase := "sweep", DryRun := false }))
      { MarkedAttachments := 0, PurgedAttachments := 0, CompactID := "",
        Phase := "", dryRun := false }).2.2.2 _ rfl (by decide) rfl

/-- C6: `AttachmentCompactionManager.Run` executes Mark, Sweep, Cleanup in
order from the current phase: starting phase "sweep" never runs Mark,
"cleanup" never runs Mark or Sweep, and an empty (or "mark") phase starts at
Mark; every entered phase is preceded by its `SetPhase` and a status
persist; a phase error or a closed terminator ends the run with no later
phase entered and with that phase's error returned; and a Cleanup that
returns without error while the terminator is open clears the phase to ""
before `Run` returns nil — on a fully clean run from the empty phase the
whole trace and nil result are as listed. -/
theorem attachmentRun_phase_ladder (env : PhaseEnv) (a : AttachmentState) :
    (a.Phase = "sweep" → RunEvent.runMark ∉ (attachmentRun env a).2.1) ∧
    (a.Phase = "cleanup" → RunEvent.runMark ∉ (attachmentRun env a).2.1 ∧
      RunEvent.runSweep ∉ (attachmentRun env a).2.1) ∧
    (a.Phase = "" ∨ a.Phase = "mark" →
      (attachmentRun env a).2.1.take 3 =
        [RunEvent.setPhase "mark", RunEvent.persistStatus, RunEvent.runMark]) ∧
    (a.Phase = "sweep" →
      (attachmentRun env a).2.1.take 3 =
        [RunEvent.setPhase "sweep", RunEvent.persistStatus, RunEvent.runSweep]) ∧
    (a.Phase = "cleanup" →
      (attachmentRun env a).2.1.take 3 =
        [RunEvent.setPhase "cleanup", RunEvent.persistStatus, RunEvent.runCleanup]) ∧
    (env.markErr.isSome = true ∨ env.closedAfterMark = true →
      RunEvent.runMark ∈ (attachmentRun env a).2.1 →
      RunEvent.runSweep ∉ (attachmentRun env a).2.1 ∧
      RunEvent.runCleanup ∉ (attachmentRun env a).2.1 ∧
      (attachmentRun env a).2.2 = env.markErr) ∧
    (env.sweepErr.isSome = true ∨ env.closedAfterSweep = true →
      RunEvent.runSweep ∈ (attachmentRun env a).2.1 →
      RunEvent.runCleanup ∉ (attachmentRun env a).2.1 ∧
      (attachmentRun env a).2.2 = env.sweepErr) ∧
    (RunEvent.runCleanup ∈ (attachmentRun env a).2.1 →
      env.cleanupErr = none → env.closedAfterCleanup = false →
      (attachmentRun env a).1.Phase = "" ∧ (attachmentRun env a).2.2 = none) ∧
    (a.Phase = "" → env.markErr = none → env.closedAfterMark = false →
      env.sweepErr = none → env.closedAfterSweep = false →
      env.cleanupErr = none → env.closedAfterCleanup = false →
      attachmentRun env a =
        ({ a with Phase := "" },
         [RunEvent.setPhase "mark", RunEvent.persistStatus, RunEvent.runMark,
          RunEvent.setPhase "sweep", RunEvent.persistStatus, RunEvent.runSweep,
          RunEvent.setPhase "cleanup", RunEvent.persistStatus, RunEvent.runCleanup,
          RunEvent.persistStatus], none)) := by
  have hcase : (a.Phase = "mark" ∨ a.Phase = "") ∨ a.Phase = "sweep" ∨
      a.Phase = "cleanup" ∨
      (a.Phase ≠ "mark" ∧ a.Phase ≠ "" ∧ a.Phase ≠ "sweep" ∧ a.Phase ≠ "cleanup") := by
    tauto
  refine ⟨?_, ?_, ?_, ?_, ?_, ?_, ?_, ?_, ?_⟩
  · intro hps
    by_cases h2 : env.sweepErr.isSome = true ∨ env.closedAfterSweep = true <;>
      by_cases h3 : env.cleanupErr.isSome = true ∨ env.closedAfterCleanup = true <;>
      simp [attachmentRun, hps, runSweepCase, runCleanupCase, h2, h3]
  · intro hpc
    by_cases h3 : env.cleanupErr.isSome = true ∨ env.closedAfterCleanup = true <;>
      simp [attachmentRun, hpc, runCleanupCase, h3]
  · intro hpm
    rcases hpm with hpm | hpm <;>
      by_cases h1 : env.markErr.isSome = true ∨ env.closedAfterMark = true <;>
      by_cases h2 : env.sweepErr.isSome = true ∨ env.closedAfterSweep = true <;>
      by_cases h3 : env.cleanupErr.isSome = true ∨ env.closedAfterCleanup = true <;>
      simp [attachmentRun, hpm, runMarkCase, runSweepCase, runCleanupCase, h1, h2, h3]
  · intro hps
    by_cases h2 : env.sweepErr.isSome = true ∨ env.closedAfterSweep = true <;>
      by_cases h3 : env.cleanupErr.isSome = true ∨ env.closedAfterCleanup = true <;>
      simp [attachmentRun, hps, runSweepCase, runCleanupCase, h2, h3]
  · intro hpc
    by_cases h3 : env.cleanupErr.isSome = true ∨ env.closedAfterCleanup = true <;>
      simp [attachmentRun, hpc, runCleanupCase, h3]
  · intro h1 hmem
    rcases hcase with hpm | hps | hpc | ⟨hn1, hn2, hn3, hn4⟩
    · rcases hpm with hpm | hpm <;>
        simp [attachmentRun, hpm, runMarkCase, h1]
    · exfalso; revert hmem
      by_cases h2 : env.sweepErr.isSome = true ∨ env.closedAfterSweep = true <;>
        by_cases h3 : env.cleanupErr.isSome = true ∨ env.closedAfterCleanup = true <;>
        simp [attachmentRun, hps, runSweepCase, runCleanupCase, h2, h3]
    · exfalso; revert hmem
      by_cases h3 : env.cleanupErr.isSome = true ∨ env.closedAfterCleanup = true <;>
        simp [attachmentRun, hpc, runCleanupCase, h3]
    · exfalso; revert hmem
      simp [attachmentRun, hn1, hn2, hn3, hn4]
  · intro h2 hmem
    rcases hcase with hpm | hps | hpc | ⟨hn1, hn2, hn3, hn4⟩
    · rcases hpm with hpm | hpm <;>
        by_cases h1 : env.markErr.isSome = true ∨ env.closedAfterMark = true <;>
        by_cases h3 : env.cleanupErr.isSome = true ∨ env.closedAfterCleanup = true <;>
        simp_all [attachmentRun, hpm, runMarkCase, runSweepCase, runCleanupCase]
    · by_cases h3 : env.cleanupErr.isSome = true ∨ env.closedAfterCleanup = true <;>
        simp [attachmentRun, hps, runSweepCase, runCleanupCase, h2, h3]
    · exfalso; revert hmem
      by_cases h3 : env.cleanupErr.isSome = true ∨ env.closedAfterCleanup = true <;>
        simp [attachmentRun, hpc, runCleanupCase, h3]
    · exfalso; revert hmem
      simp [attachmentRun, hn1, hn2, hn3, hn4]
  · intro hmem hce hcc
    rcases hcase with hpm | hps | hpc | ⟨hn1, hn2, hn3, hn4⟩
    · rcases hpm with hpm | hpm <;>
        by_cases h1 : env.markErr.isSome = true ∨ env.closedAfterMark = true <;>
        by_cases h2 : env.sweepErr.isSome = true ∨ env.closedAfterSweep = true <;>
        simp_all [attachmentRun, hpm, runMarkCase, runSweepCase, runCleanupCase]
    · by_cases h2 : env.sweepErr.isSome = true ∨ env.closedAfterSweep = true <;>
        simp_all [attachmentRun, hps, runSweepCase, runCleanupCase]
    · simp_all [attachmentRun, hpc, runCleanupCase]
    · exfalso; revert hmem
      simp [attachmentRun, hn1, hn2, hn3, hn4]
  · intro hpm h1 h2 h3 h4 h5 h6
    simp [attachmentRun, hpm, runMarkCase, runSweepCase, runCleanupCase,
      h1, h2, h3, h4, h5, h6]

/-- Witness for C6 at concrete inputs: a resumed phase "sweep" with a sweep
error runs no Mark and returns the sweep error after the sweep triple; a
clean run from the empty phase produces the full ten-event trace, clears the
phase and returns nil. -/
theorem attachmentRun_phase_ladder_witness :
    RunEvent.runMark ∉
      (attachmentRun
        { markErr := none, closedAfterMark := false,
          sweepErr := some (GoErr.other "sweep failed"), closedAfterSweep := false,
          cleanupErr := none, closedAfterCleanup := false }
        { MarkedAttachments := 500, PurgedAttachments := 120, CompactID := "run-9",
          Phase := "sweep", dryRun := false }).2.1 ∧
    (attachmentRun
        { markErr := none, closedAfterMark := false,
          sweepErr := some (GoErr.other "sweep failed"), closedAfterSweep := false,
          cleanupErr := none, closedAfterCleanup := false }
        { MarkedAttachments := 500, PurgedAttachments := 120, CompactID := "run-9",
          Phase := "sweep", dryRun := false }).2.2 = some (GoErr.other "sweep failed") ∧
    attachmentRun
        { markErr := none, closedAfterMark := false,
          sweepErr := none, closedAfterSweep := false,
          cleanupErr := none, closedAfterCleanup := false }
        { MarkedAttachments := 0, PurgedAttachments := 0, CompactID := "run-1",
          Phase := "", dryRun := false } =
      ({ MarkedAttachments := 0, PurgedAttachments := 0, CompactID := "run-1",
         Phase := "", dryRun := false },
       [RunEvent.setPhase "mark", RunEvent.persistStatus, RunEvent.runMark,
        RunEvent.setPhase "sweep", RunEvent.persistStatus, RunEvent.runSweep,
        RunEvent.setPhase "cleanup", RunEvent.persistStatus, RunEvent.runCleanup,
        RunEvent.persistStatus], none) := by
  refine ⟨?_, ?_, ?_⟩
  · exact (attachmentRun_phase_ladder
      { markErr := none, closedAfterMark := false,
        sweepErr := some (GoErr.other "sweep failed"), closedAfterSweep := false,
        cleanupErr := none, closedAfterCleanup := false }
      { MarkedAttachments := 500, PurgedAttachments := 120, CompactID := "run-9",
        Phase := "sweep", dryRun := false }).1 rfl
  · exact ((attachmentRun_phase_ladder
      { markErr := none, closedAfterMark := false,
        sweepErr := some (GoErr.other "sweep failed"), closedAfterSweep := false,
        cleanupErr := none, closedAfterCleanup := false }
      { MarkedAttachments := 500, PurgedAttachments := 120, CompactID := "run-9",
        Phase := "sweep", dryRun := false }).2.2.2.2.2.2.1 (Or.inl rfl)
        (by decide)).2
  · exact (attachmentRun_phase_ladder
      { markErr := none, closedAfterMark := false,
        sweepErr := none, closedAfterSweep := false,
        cleanupErr := none, closedAfterCleanup := false }
      { MarkedAttachments := 0, PurgedAttachments := 0, CompactID := "run-1",
        Phase := "", dryRun := false }).2.2.2.2.2.2.2.2
      rfl rfl rfl rfl rfl rfl rfl

/-- C7: Start with `reset=true` on a manager whose in-memory attachment
state still holds `Phase = "sweep"` from an earlier run (for example after
that run erred out mid-sweep).  The claimed fresh `CompactID` and zeroed
counters do hold, but the phase field survives both `ResetStatus` and the
fresh-run branch of `Init`, so `Run` begins at Sweep — its first event is
`SetPhase "sweep"` and Mark is never entered — refuting "the run's phase
begins at mark regardless of the manager's prior in-memory state". -/
theorem attachmentStart_reset_retains_phase :
    attachmentInit "new-uuid" { dryRun := none, reset := some true }
        (some (.ok { State := .error, MarkedAttachments := 500,
                     PurgedAttachments := 120, CompactID := "old-id",
                     Phase := "sweep", DryRun := false }))
        (attachmentResetStatus
          { MarkedAttachments := 500, PurgedAttachments := 120,
            CompactID := "old-id", Phase := "sweep", dryRun := false }) =
      { MarkedAttachments := 0, PurgedAttachments := 0,
        CompactID := "new-uuid", Phase := "sweep", dryRun := false } ∧
    (attachmentStartPipeline "new-uuid" { dryRun := none, reset := some true }
        (some (.ok { State := .error, MarkedAttachments := 500,
                     PurgedAttachments := 120, CompactID := "old-id",
                     Phase := "sweep", DryRun := false }))
        { markErr := none, closedAfterMark := false,
          sweepErr := none, closedAfterSweep := false,
          cleanupErr := none, closedAfterCleanup := false }
        { MarkedAttachments := 500, PurgedAttachments := 120,
          CompactID := "old-id", Phase := "sweep", dryRun := false }).2.1.take 1 =
      [RunEvent.setPhase "sweep"] ∧
    RunEvent.runMark ∉
      (attachmentStartPipeline "new-uuid" { dryRun := none, reset := some true }
        (some (.ok { State := .error, MarkedAttachments := 500,
                     PurgedAttachments := 120, CompactID := "old-id",
                     Phase := "sweep", DryRun := false }))
        { markErr := none, closedAfterMark := false,
          sweepErr := none, closedAfterSweep := false,
          cleanupErr := none, closedAfterCleanup := false }
        { MarkedAttachments := 500, PurgedAttachments := 120,
          CompactID := "old-id", Phase := "sweep", dryRun := false }).2.1 := by
  refine ⟨rfl, rfl, ?_⟩
  decide

/-- A sample manager state after an erroring run. -/
def mgrErrored : MgrState :=
  { status := { State := .error, StartTime := 0, LastErrorMessage := "" },
    lastError := some (GoErr.other "boom"),
    terminatorClosed := true }

/-- C8 counterexample: local-mode `markStop` on a manager in state ERROR
does not return "Process already stopped" — it falls through the
COMPLETED/STOPPED check, transitions the state to STOPPING and returns
nil. -/
theorem markStop_error_state_transitions_to_stopping :
    markStop none mgrErrored =
      ({ mgrErrored with
          status := { mgrErrored.status with State := .stopping } }, none) ∧
    (markStop none mgrErrored).2 ≠
      some (GoErr.httpError 503 "Process already stopped") := by
  refine ⟨rfl, ?_⟩
  decide

/-- C8 (amended): local-mode `markStop` returns 503 "Process already
stopping" when the state is STOPPING and 503 "Process already stopped" when
it is COMPLETED or STOPPED; for every other state — ERROR included — it sets
the state to STOPPING and returns nil, so a call while the state is ERROR
transitions the manager instead of reporting "Process already stopped". -/
theorem markStop_local_spec (m : MgrState) :
    (m.status.State = .stopping →
      markStop none m =
        (m, some (GoErr.httpError 503 "Process already stopping"))) ∧
    (m.status.State = .completed ∨ m.status.State = .stopped →
      markStop none m =
        (m, some (GoErr.httpError 503 "Process already stopped"))) ∧
    (m.status.State ≠ .stopping → m.status.State ≠ .completed →
      m.status.State ≠ .stopped →
      markStop none m =
        ({ m with status := { m.status with State := .stopping } }, none)) := by
  refine ⟨?_, ?_, ?_⟩
  · intro h
    simp [markStop, h]
  · intro h
    have hne : m.status.State ≠ .stopping := by
      rcases h with h | h <;> simp [h]
    simp [markStop, hne, h]
  · intro h1 h2 h3
    simp [markStop, h1, h2, h3]

/-- Witness for C8's amended theorem: a running manager is moved to STOPPING
with a nil error and a completed manager is rejected with 503 "Process
already stopped". -/
theorem markStop_local_spec_witness :
    markStop none mgrRunning =
      ({ mgrRunning with
          status := { mgrRunning.status with State := .stopping } }, none) ∧
    markStop none mgrCompleted =
      (mgrCompleted, some (GoErr.httpError 503 "Process already stopped")) := by
  refine ⟨?_, ?_⟩
  · exact (markStop_local_spec mgrRunning).2.2 (by decide) (by decide) (by decide)
  · exact (markStop_local_spec mgrCompleted).2.1 (Or.inl rfl)

/-- C9: whenever `markStop` fails, `Stop` returns that error with the
manager exactly as it was — state field and terminator untouched — and the
terminator is closed only on the success path, after `markStop` returns
nil. -/
theorem Stop_closes_terminator_only_on_success (cluster : Option ClusterStopEnv)
    (m : MgrState) :
    (∀ e, (markStop cluster m).2 = some e → Stop cluster m = (m, some e)) ∧
    ((markStop cluster m).2 = none →
      (Stop cluster m).1.terminatorClosed = true ∧ (Stop cluster m).2 = none) := by
  have frame : ∀ e, (markStop cluster m).2 = some e → (markStop cluster m).1 = m := by
    intro e he
    match cluster with
    | none =>
        by_cases h1 : m.status.State = .stopping
        · simp [markStop, h1]
        · by_cases h2 : m.status.State = .completed ∨ m.status.State = .stopped
          · simp [markStop, h1, h2]
          · simp [markStop, h1, h2] at he
    | some env =>
        match hget : env.hbGet with
        | .error err =>
            by_cases hd : err = GoErr.docNotFound <;> simp [markStop, hget, hd]
        | .ok v =>
            match hset : env.hbSet with
            | some err => simp [markStop, hget, hset]
            | none =>
                by_cases hr : m.status.State = .running <;>
                  simp [markStop, hget, hset, hr] at he
  refine ⟨?_, ?_⟩
  · intro e he
    have hpair : markStop cluster m = (m, some e) := by
      have h1 := frame e he
      have h2 : markStop cluster m = ((markStop cluster m).1, (markStop cluster m).2) := rfl
      rw [h2, h1, he]
    simp [Stop, hpair]
  · intro he
    rcases hms : markStop cluster m with ⟨m1, err⟩
    have herr : err = none := by rw [hms] at he; exact he
    subst herr
    simp [Stop, hms]

/-- Witness for C9: stopping an already-completed local manager fails with
503 and returns it untouched, terminator still open in the returned state;
stopping a running local manager succeeds and closes the terminator. -/
theorem Stop_closes_terminator_only_on_success_witness :
    Stop none mgrCompleted =
      (mgrCompleted, some (GoErr.httpError 503 "Process already stopped")) ∧
    (Stop none mgrRunning).1.terminatorClosed = true ∧
    (Stop none mgrRunning).2 = none := by
  refine ⟨?_, ?_⟩
  · exact (Stop_closes_terminator_only_on_success none mgrCompleted).1 _ rfl
  · exact (Stop_closes_terminator_only_on_success none mgrRunning).2 rfl

/-- C10: `getStatusLocal` never mutates the manager: the empty-state
defaulting to COMPLETED and the rendering of `lastError` happen on the
copied envelope only, and after the call the manager's `State`, `StartTime`
and `lastError` are exactly what they were before. -/
theorem getStatusLocal_does_not_mutate_manager (m : MgrState) :
    (getStatusLocal m).2 = m ∧
    (getStatusLocal m).2.status.State = m.status.State ∧
    (getStatusLocal m).2.status.StartTime = m.status.StartTime ∧
    (getStatusLocal m).2.lastError = m.lastError ∧
    (getStatusLocal m).1.State =
      (if m.status.State.toStr = "" then BackgroundProcessState.completed
       else m.status.State) ∧
    (getStatusLocal m).1.LastErrorMessage =
      (match m.lastError with
       | some e => e.message
       | none => m.status.LastErrorMessage) := by
  rcases m with ⟨⟨s, t, msg⟩, le, tc⟩
  refine ⟨rfl, rfl, rfl, rfl, ?_, ?_⟩ <;>
    cases le <;> by_cases h : s.toStr = "" <;>
      simp [getStatusLocal, h]

end SyncGW
